import Mathlib

/-!
Shallow embedding of `crates/ide_db/src/defs.rs`: the symbol-classification
core (`Definition`, `NameClass`, `NameRefClass`) of the IDE backend.

Syntax-tree navigation and all semantic resolution are external collaborators
(spec §6: the "semantics facade"); they are modelled as records of functions
(`Semantics`, `RootDatabase`).  A focused syntax node is modelled as its own
node data together with the data of its ancestor chain (nearest first), which
gives `parent` and `ancestors` exactly the structure the source relies on.
The classification functions themselves are transliterated from the source.
-/

namespace IdeDb

/-- Node kinds of the syntax tree, covering every `ast::*` cast and
`SyntaxKind` test that `defs.rs` performs. -/
inductive SyntaxKind where
  | NAME | NAME_REF | LIFETIME
  | TOKEN_TREE | META | ATTR
  | PATH | PATH_SEGMENT
  | USE_TREE | USE_TREE_LIST | RENAME | EXTERN_CRATE
  | IDENT_PAT | RECORD_PAT_FIELD | SELF_PARAM | RECORD_FIELD
  | MODULE_ITEM | STRUCT_ITEM | UNION_ITEM | ENUM_ITEM | TRAIT_ITEM
  | STATIC_ITEM | VARIANT_ITEM | FN_ITEM | CONST_ITEM | TYPE_ALIAS_ITEM
  | MACRO_ITEM | TYPE_PARAM | CONST_PARAM | LIFETIME_PARAM | LABEL_DECL
  | METHOD_CALL_EXPR | FIELD_EXPR | RECORD_EXPR_FIELD | ASSOC_TYPE_ARG
  | MACRO_CALL | BREAK_EXPR | CONTINUE_EXPR
  | LIFETIME_ARG | TYPE_BOUND | WHERE_PRED | REF_TYPE
  | OTHER
deriving DecidableEq, Repr

/-- The data a single node carries: its kind, an identity (rowan node
equality is positional identity), and its text (used by `name_ref.text()`). -/
structure NodeData where
  kind : SyntaxKind
  id : Nat
  text : String
deriving DecidableEq, Repr

/-- A focused syntax node: its own data plus the data of all its ancestors,
nearest first.  `parent` drops the head of the ancestor list. -/
structure SyntaxNode where
  data : NodeData
  up : List NodeData
deriving DecidableEq, Repr

def SyntaxNode.parent (n : SyntaxNode) : Option SyntaxNode :=
  match n.up with
  | [] => none
  | d :: rest => some ⟨d, rest⟩

/-- `rowan`'s `SyntaxNode::ancestors()`: the node itself followed by its
parent chain. -/
def ancestorsAux : NodeData → List NodeData → List SyntaxNode
  | d, [] => [⟨d, []⟩]
  | d, e :: up => ⟨d, e :: up⟩ :: ancestorsAux e up

def SyntaxNode.ancestors (n : SyntaxNode) : List SyntaxNode :=
  ancestorsAux n.data n.up

/-- `ast::X::cast(node)`: succeeds exactly when the node has kind `k`. -/
def castKind (k : SyntaxKind) (n : SyntaxNode) : Option SyntaxNode :=
  if n.data.kind = k then some n else none

/-- `ast::Path::top_path()`: climb while the parent is itself a path. -/
def topPathAux : NodeData → List NodeData → SyntaxNode
  | d, [] => ⟨d, []⟩
  | d, e :: up =>
    if e.kind = SyntaxKind.PATH then topPathAux e up else ⟨d, e :: up⟩

def topPath (p : SyntaxNode) : SyntaxNode := topPathAux p.data p.up

/-- Token kinds: `ast::Ident::cast` succeeds exactly on `IDENT` tokens. -/
inductive TokenKind where
  | IDENT | OTHER
deriving DecidableEq, Repr

/-- A syntax token: kind, identity, and optional parent node. -/
structure SyntaxToken where
  kind : TokenKind
  id : Nat
  parent : Option SyntaxNode
deriving DecidableEq, Repr

/-! ### Opaque semantic handles (owned by the external semantic database) -/

structure MacroDef where id : Nat
deriving DecidableEq, Repr
structure Field where id : Nat
deriving DecidableEq, Repr
structure Module where id : Nat
deriving DecidableEq, Repr
structure Function where id : Nat
deriving DecidableEq, Repr
structure Struct where id : Nat
deriving DecidableEq, Repr
structure Union where id : Nat
deriving DecidableEq, Repr
structure Enum where id : Nat
deriving DecidableEq, Repr
structure Variant where id : Nat
deriving DecidableEq, Repr
structure Const where id : Nat
deriving DecidableEq, Repr
structure Static where id : Nat
deriving DecidableEq, Repr
structure Trait where id : Nat
deriving DecidableEq, Repr
structure TypeAlias where id : Nat
deriving DecidableEq, Repr
structure BuiltinType where id : Nat
deriving DecidableEq, Repr
structure Impl where id : Nat
deriving DecidableEq, Repr
structure Local where id : Nat
deriving DecidableEq, Repr
structure TypeParam where id : Nat
deriving DecidableEq, Repr
structure ConstParam where id : Nat
deriving DecidableEq, Repr
structure LifetimeParam where id : Nat
deriving DecidableEq, Repr
structure Label where id : Nat
deriving DecidableEq, Repr
structure Crate where id : Nat
deriving DecidableEq, Repr

/-- `hir::Adt`. -/
inductive Adt where
  | Struct (s : Struct)
  | Union (u : Union)
  | Enum (e : Enum)
deriving DecidableEq, Repr

/-- `hir::GenericParam`. -/
inductive GenericParam where
  | TypeParam (p : TypeParam)
  | ConstParam (p : ConstParam)
  | LifetimeParam (p : LifetimeParam)
deriving DecidableEq, Repr

/-- `hir::ModuleDef`. -/
inductive ModuleDef where
  | Module (m : Module)
  | Function (f : Function)
  | Adt (a : Adt)
  | Variant (v : Variant)
  | Const (c : Const)
  | Static (s : Static)
  | Trait (t : Trait)
  | TypeAlias (t : TypeAlias)
  | BuiltinType (b : BuiltinType)
deriving DecidableEq, Repr

/-- `hir::AssocItem`. -/
inductive AssocItem where
  | Function (f : Function)
  | Const (c : Const)
  | TypeAlias (t : TypeAlias)
deriving DecidableEq, Repr

/-- `hir::MacroKind`. -/
inductive MacroKind where
  | Declarative | Derive | BuiltIn | Attr | ProcMacro
deriving DecidableEq, Repr

/-- `hir::PathResolution`. -/
inductive PathResolution where
  | Def (d : ModuleDef)
  | AssocItem (i : AssocItem)
  | Local (l : Local)
  | TypeParam (p : TypeParam)
  | Macro (m : MacroDef)
  | SelfType (i : Impl)
  | ConstParam (p : ConstParam)
deriving DecidableEq, Repr

/-- `hir::Visibility`. -/
inductive Visibility where
  | Module (m : Module)
  | Public
deriving DecidableEq, Repr

/-- The `Definition` sum type of `defs.rs`. -/
inductive Definition where
  | Macro (m : MacroDef)
  | Field (f : Field)
  | Module (m : Module)
  | Function (f : Function)
  | Adt (a : Adt)
  | Variant (v : Variant)
  | Const (c : Const)
  | Static (s : Static)
  | Trait (t : Trait)
  | TypeAlias (t : TypeAlias)
  | BuiltinType (b : BuiltinType)
  | SelfType (i : Impl)
  | Local (l : Local)
  | GenericParam (p : GenericParam)
  | Label (l : Label)
deriving DecidableEq, Repr

/-- `impl From<ModuleDef> for Definition`. -/
def Definition.ofModuleDef : ModuleDef → Definition
  | ModuleDef.Module it => Definition.Module it
  | ModuleDef.Function it => Definition.Function it
  | ModuleDef.Adt it => Definition.Adt it
  | ModuleDef.Variant it => Definition.Variant it
  | ModuleDef.Const it => Definition.Const it
  | ModuleDef.Static it => Definition.Static it
  | ModuleDef.Trait it => Definition.Trait it
  | ModuleDef.TypeAlias it => Definition.TypeAlias it
  | ModuleDef.BuiltinType it => Definition.BuiltinType it

/-- `impl From<PathResolution> for Definition`. -/
def Definition.ofPathResolution : PathResolution → Definition
  | PathResolution.Def d => Definition.ofModuleDef d
  | PathResolution.AssocItem (AssocItem.Function it) =>
      Definition.ofModuleDef (ModuleDef.Function it)
  | PathResolution.AssocItem (AssocItem.Const it) =>
      Definition.ofModuleDef (ModuleDef.Const it)
  | PathResolution.AssocItem (AssocItem.TypeAlias it) =>
      Definition.ofModuleDef (ModuleDef.TypeAlias it)
  | PathResolution.Local l => Definition.Local l
  | PathResolution.TypeParam p => Definition.GenericParam (GenericParam.TypeParam p)
  | PathResolution.Macro m => Definition.Macro m
  | PathResolution.SelfType i => Definition.SelfType i
  | PathResolution.ConstParam p => Definition.GenericParam (GenericParam.ConstParam p)

/-- The external semantic database: per-kind metadata accessors consumed by
`Definition::visibility`, trait-item listing, type-alias names, macro kinds,
and crate roots. -/
structure RootDatabase where
  field_visibility : Field → Visibility
  module_visibility : Module → Visibility
  function_visibility : Function → Visibility
  adt_visibility : Adt → Visibility
  const_visibility : Const → Visibility
  static_visibility : Static → Visibility
  trait_visibility : Trait → Visibility
  type_alias_visibility : TypeAlias → Visibility
  variant_visibility : Variant → Visibility
  trait_items : Trait → List AssocItem
  type_alias_name : TypeAlias → String
  macro_kind : MacroDef → MacroKind
  crate_root_module : Crate → Module

/-- The semantics facade (spec §6): every resolution query and every piece of
syntax navigation that is not expressible from the ancestor chain (child
accessors of the external syntax crate).  Each query returns an optional
result and never throws. -/
structure Semantics where
  db : RootDatabase
  /-- `sema.resolve_bind_pat_to_const` (yields a `ModuleDef`). -/
  resolve_bind_pat_to_const : SyntaxNode → Option ModuleDef
  /-- `sema.to_def` on the various declaration nodes. -/
  to_def_ident_pat : SyntaxNode → Option Local
  to_def_self_param : SyntaxNode → Option Local
  to_def_record_field : SyntaxNode → Option Field
  to_def_module : SyntaxNode → Option Module
  to_def_struct : SyntaxNode → Option Struct
  to_def_union : SyntaxNode → Option Union
  to_def_enum : SyntaxNode → Option Enum
  to_def_trait : SyntaxNode → Option Trait
  to_def_static : SyntaxNode → Option Static
  to_def_variant : SyntaxNode → Option Variant
  to_def_fn : SyntaxNode → Option Function
  to_def_const : SyntaxNode → Option Const
  to_def_type_alias : SyntaxNode → Option TypeAlias
  to_def_macro_item : SyntaxNode → Option MacroDef
  to_def_type_param : SyntaxNode → Option TypeParam
  to_def_const_param : SyntaxNode → Option ConstParam
  to_def_lifetime_param : SyntaxNode → Option LifetimeParam
  to_def_label : SyntaxNode → Option Label
  resolve_extern_crate : SyntaxNode → Option Crate
  resolve_record_pat_field : SyntaxNode → Option Field
  resolve_method_call : SyntaxNode → Option Function
  resolve_field : SyntaxNode → Option Field
  /-- `sema.resolve_record_field`: field plus optional same-named local
  (the inferred type component is unused by the classifier and omitted). -/
  resolve_record_field : SyntaxNode → Option (Field × Option Local)
  resolve_path : SyntaxNode → Option PathResolution
  /-- `sema.resolve_path_as_macro`. -/
  resolve_path_as_macro_def : SyntaxNode → Option MacroDef
  resolve_macro_call : SyntaxNode → Option MacroDef
  resolve_label : SyntaxNode → Option Label
  resolve_lifetime_param : SyntaxNode → Option LifetimeParam
  /-- `ast::TokenTree::parent_meta` (external syntax crate). -/
  tt_parent_meta : SyntaxNode → Option SyntaxNode
  /-- `ast::Meta::parent_attr` (external syntax crate). -/
  meta_parent_attr : SyntaxNode → Option SyntaxNode
  /-- `ast::UseTree::path` (child accessor, external syntax crate). -/
  use_tree_path : SyntaxNode → Option SyntaxNode
  /-- `ast::Path::segment` (child accessor). -/
  path_segment : SyntaxNode → Option SyntaxNode
  /-- `ast::PathSegment::name_ref` (child accessor). -/
  segment_name_ref : SyntaxNode → Option SyntaxNode
  /-- `name_ref.self_token().is_some()`. -/
  name_ref_is_self_token : SyntaxNode → Bool
  /-- `ast::RecordPatField::name_ref` (child accessor). -/
  record_pat_field_name_ref : SyntaxNode → Option SyntaxNode
  /-- `ast::AssocTypeArg::name_ref` (child accessor). -/
  assoc_type_arg_name_ref : SyntaxNode → Option SyntaxNode
  /-- `ast::RecordExprField::for_field_name(name_ref)` (external syntax crate). -/
  record_expr_field_for_field_name : SyntaxNode → Option SyntaxNode
  /-- `ast::Path::qualifier` (child accessor). -/
  path_qualifier : SyntaxNode → Option SyntaxNode
  /-- `ast::Attr::path` (child accessor). -/
  attr_path : SyntaxNode → Option SyntaxNode
  /-- `ast::LifetimeParam::lifetime` (child accessor). -/
  lifetime_param_lifetime : SyntaxNode → Option SyntaxNode
  /-- Modelled from the spec: the external derive-input resolver of
  `helpers::try_resolve_derive_input` (not part of this file's source),
  "invoked only for identifiers inside a derive attribute's argument list",
  yielding at most one resolution. -/
  try_resolve_derive_input : SyntaxNode → SyntaxToken → Option PathResolution

end IdeDb

namespace IdeDb

/-- `NameRefClass` of `defs.rs`. -/
inductive NameRefClass where
  | Definition (d : IdeDb.Definition)
  | FieldShorthand (local_ref : Local) (field_ref : Field)
deriving DecidableEq, Repr

/-- `NameClass` of `defs.rs`. -/
inductive NameClass where
  | Definition (d : IdeDb.Definition)
  | ConstReference (d : IdeDb.Definition)
  | PatFieldShorthand (local_def : Local) (field_ref : Field)
deriving DecidableEq, Repr

/-- `NameClass::defined`. -/
def NameClass.defined : NameClass → Option IdeDb.Definition
  | NameClass.Definition it => some it
  | NameClass.ConstReference _ => none
  | NameClass.PatFieldShorthand local_def _ => some (Definition.Local local_def)

/-- The `hir::AssocItem::TypeAlias` projection used by the associated-type
search in `NameRefClass::classify`. -/
def assocTypeAlias : AssocItem → Option TypeAlias
  | AssocItem.TypeAlias it => some it
  | _ => none

/-- The associated-type block of `NameRefClass::classify` (`Trait<Assoc =
Ty>`): resolve the nearest path ancestor; if it is a trait, linearly search
that trait's own associated items for a type alias whose textual name matches
the name-ref's text. -/
def assocTypeArgResolution (sema : Semantics) (name_ref : SyntaxNode) :
    Option NameRefClass :=
  match name_ref.ancestors.findSome? (castKind SyntaxKind.PATH) with
  | none => none
  | some path =>
    match sema.resolve_path path with
    | none => none
    | some (PathResolution.Def (ModuleDef.Trait tr)) =>
      match ((sema.db.trait_items tr).filterMap assocTypeAlias).find?
          (fun al => sema.db.type_alias_name al = name_ref.data.text) with
      | some ty => some (NameRefClass.Definition (Definition.TypeAlias ty))
      | none => none
    | some _ => none

/-- The path block of `NameRefClass::classify`: the unqualified macro-call
subcase, then the attribute-membership three-way outcome, then generic path
resolution. -/
def pathShapedResolution (sema : Semantics) (path : SyntaxNode) :
    Option NameRefClass :=
  match (if (sema.path_qualifier path).isNone then
      (path.parent.bind (castKind SyntaxKind.MACRO_CALL)).bind
        sema.resolve_macro_call
    else none) with
  | some macro_def => some (NameRefClass.Definition (Definition.Macro macro_def))
  | none =>
    match (topPath path).ancestors.findSome? (castKind SyntaxKind.ATTR) with
    | some attr =>
      if sema.attr_path attr = some (topPath path) then
        if path = topPath path then
          match sema.resolve_path_as_macro_def path with
          | some mac =>
            if sema.db.macro_kind mac = MacroKind.Attr then
              some (NameRefClass.Definition (Definition.Macro mac))
            else none
          | none => none
        else
          -- path is a qualifier of the attribute path: keep only modules
          match sema.resolve_path path with
          | some (PathResolution.Def (ModuleDef.Module module)) =>
            some (NameRefClass.Definition (Definition.Module module))
          | some _ => none
          | none => none
      else
        -- inside the attribute but not part of its own path
        none
    | none =>
      (sema.resolve_path path).map
        (fun res => NameRefClass.Definition (Definition.ofPathResolution res))

/-- `NameRefClass::classify`, transliterated: seven contexts tried in source
order; each `if let Some(..) = cast(..)` + inner resolution that falls through
on failure is a `bind` whose `none` case continues to the next context. -/
def NameRefClass.classify (sema : Semantics) (name_ref : SyntaxNode) :
    Option NameRefClass :=
  match name_ref.parent with
  | none => none
  | some parent =>
    match (castKind SyntaxKind.METHOD_CALL_EXPR parent).bind
        sema.resolve_method_call with
    | some func => some (NameRefClass.Definition (Definition.Function func))
    | none =>
    match (castKind SyntaxKind.FIELD_EXPR parent).bind sema.resolve_field with
    | some field => some (NameRefClass.Definition (Definition.Field field))
    | none =>
    match (sema.record_expr_field_for_field_name name_ref).bind
        sema.resolve_record_field with
    | some (field, some l) => some (NameRefClass.FieldShorthand l field)
    | some (field, none) => some (NameRefClass.Definition (Definition.Field field))
    | none =>
    match (castKind SyntaxKind.RECORD_PAT_FIELD parent).bind
        sema.resolve_record_pat_field with
    | some field => some (NameRefClass.Definition (Definition.Field field))
    | none =>
    if parent.data.kind = SyntaxKind.ASSOC_TYPE_ARG ∧
        sema.assoc_type_arg_name_ref parent = some name_ref then
      -- `Trait<Assoc = Ty>`: decided here, never falls through (`return None`)
      assocTypeArgResolution sema name_ref
    else
    match name_ref.ancestors.findSome? (castKind SyntaxKind.PATH) with
    | some path => pathShapedResolution sema path
    | none =>
      match castKind SyntaxKind.EXTERN_CRATE parent with
      | some extern_crate =>
        match sema.resolve_extern_crate extern_crate with
        | some krate => some (NameRefClass.Definition
            (Definition.Module (sema.db.crate_root_module krate)))
        | none => none
      | none => none

/-- The "self" wrinkle of the rename clause: climb from the use-tree over the
use-tree-list to the parent use-tree's own path segment's name-ref. -/
def selfSegmentClimb (sema : Semantics) (use_tree : SyntaxNode) :
    Option SyntaxNode :=
  use_tree.parent.bind fun it =>
  (it.parent.bind (castKind SyntaxKind.USE_TREE)).bind fun use_tree2 =>
  (sema.use_tree_path use_tree2).bind fun path2 =>
  (sema.path_segment path2).bind sema.segment_name_ref

/-- Collapse of a delegated `NameRefClass` at a rename site: a
`FieldShorthand` keeps only its field half. -/
def renameCollapse : NameRefClass → IdeDb.Definition
  | NameRefClass.Definition d => d
  | NameRefClass.FieldShorthand _ field_ref => Definition.Field field_ref

/-- `NameClass::classify`, transliterated.  The bind-pattern constant check
precedes the structural dispatch; the dispatch arms follow `match_ast!`. -/
def NameClass.classify (sema : Semantics) (name : SyntaxNode) :
    Option NameClass :=
  match name.parent with
  | none => none
  | some parent =>
    match (castKind SyntaxKind.IDENT_PAT parent).bind
        sema.resolve_bind_pat_to_const with
    | some d => some (NameClass.ConstReference (Definition.ofModuleDef d))
    | none =>
    match parent.data.kind with
    | SyntaxKind.RENAME =>
      match parent.parent.bind (castKind SyntaxKind.USE_TREE) with
      | some use_tree =>
        (sema.use_tree_path use_tree).bind fun path =>
        (sema.path_segment path).bind fun path_segment =>
        (sema.segment_name_ref path_segment).bind fun name_ref =>
        let name_ref :=
          if sema.name_ref_is_self_token name_ref then
            -- Skip over UseTreeList to the parent use-tree's own segment
            (selfSegmentClimb sema use_tree).getD name_ref
          else name_ref
        (NameRefClass.classify sema name_ref).map fun name_ref_class =>
          NameClass.Definition (renameCollapse name_ref_class)
      | none =>
        (parent.parent.bind (castKind SyntaxKind.EXTERN_CRATE)).bind
          fun extern_crate =>
        (sema.resolve_extern_crate extern_crate).map fun krate =>
          NameClass.Definition (Definition.Module (sema.db.crate_root_module krate))
    | SyntaxKind.IDENT_PAT =>
      match sema.to_def_ident_pat parent with
      | none => none
      | some l =>
        match parent.parent.bind (castKind SyntaxKind.RECORD_PAT_FIELD) with
        | some record_pat_field =>
          if (sema.record_pat_field_name_ref record_pat_field).isNone then
            match sema.resolve_record_pat_field record_pat_field with
            | some field => some (NameClass.PatFieldShorthand l field)
            | none => some (NameClass.Definition (Definition.Local l))
          else some (NameClass.Definition (Definition.Local l))
        | none => some (NameClass.Definition (Definition.Local l))
    | SyntaxKind.SELF_PARAM =>
      (sema.to_def_self_param parent).map fun d =>
        NameClass.Definition (Definition.Local d)
    | SyntaxKind.RECORD_FIELD =>
      (sema.to_def_record_field parent).map fun f =>
        NameClass.Definition (Definition.Field f)
    | SyntaxKind.MODULE_ITEM =>
      (sema.to_def_module parent).map fun d =>
        NameClass.Definition (Definition.Module d)
    | SyntaxKind.STRUCT_ITEM =>
      (sema.to_def_struct parent).map fun d =>
        NameClass.Definition (Definition.Adt (Adt.Struct d))
    | SyntaxKind.UNION_ITEM =>
      (sema.to_def_union parent).map fun d =>
        NameClass.Definition (Definition.Adt (Adt.Union d))
    | SyntaxKind.ENUM_ITEM =>
      (sema.to_def_enum parent).map fun d =>
        NameClass.Definition (Definition.Adt (Adt.Enum d))
    | SyntaxKind.TRAIT_ITEM =>
      (sema.to_def_trait parent).map fun d =>
        NameClass.Definition (Definition.Trait d)
    | SyntaxKind.STATIC_ITEM =>
      (sema.to_def_static parent).map fun d =>
        NameClass.Definition (Definition.Static d)
    | SyntaxKind.VARIANT_ITEM =>
      (sema.to_def_variant parent).map fun d =>
        NameClass.Definition (Definition.Variant d)
    | SyntaxKind.FN_ITEM =>
      (sema.to_def_fn parent).map fun d =>
        NameClass.Definition (Definition.Function d)
    | SyntaxKind.CONST_ITEM =>
      (sema.to_def_const parent).map fun d =>
        NameClass.Definition (Definition.Const d)
    | SyntaxKind.TYPE_ALIAS_ITEM =>
      (sema.to_def_type_alias parent).map fun d =>
        NameClass.Definition (Definition.TypeAlias d)
    | SyntaxKind.MACRO_ITEM =>
      (sema.to_def_macro_item parent).map fun d =>
        NameClass.Definition (Definition.Macro d)
    | SyntaxKind.TYPE_PARAM =>
      (sema.to_def_type_param parent).map fun d =>
        NameClass.Definition (Definition.GenericParam (GenericParam.TypeParam d))
    | SyntaxKind.CONST_PARAM =>
      (sema.to_def_const_param parent).map fun d =>
        NameClass.Definition (Definition.GenericParam (GenericParam.ConstParam d))
    | _ => none

/-- `NameClass::classify_lifetime`. -/
def NameClass.classify_lifetime (sema : Semantics) (lifetime : SyntaxNode) :
    Option NameClass :=
  match lifetime.parent with
  | none => none
  | some parent =>
    match parent.data.kind with
    | SyntaxKind.LIFETIME_PARAM =>
      (sema.to_def_lifetime_param parent).map fun d =>
        NameClass.Definition (Definition.GenericParam (GenericParam.LifetimeParam d))
    | SyntaxKind.LABEL_DECL =>
      (sema.to_def_label parent).map fun d =>
        NameClass.Definition (Definition.Label d)
    | _ => none

/-- `NameRefClass::classify_lifetime`. -/
def NameRefClass.classify_lifetime (sema : Semantics) (lifetime : SyntaxNode) :
    Option NameRefClass :=
  match lifetime.parent with
  | none => none
  | some parent =>
    match parent.data.kind with
    | SyntaxKind.BREAK_EXPR | SyntaxKind.CONTINUE_EXPR =>
      (sema.resolve_label lifetime).map fun l =>
        NameRefClass.Definition (Definition.Label l)
    | SyntaxKind.LIFETIME_ARG | SyntaxKind.SELF_PARAM | SyntaxKind.TYPE_BOUND
    | SyntaxKind.WHERE_PRED | SyntaxKind.REF_TYPE =>
      (sema.resolve_lifetime_param lifetime).map fun p =>
        NameRefClass.Definition (Definition.GenericParam (GenericParam.LifetimeParam p))
    | _ =>
      if ((castKind SyntaxKind.LIFETIME_PARAM parent).bind
          sema.lifetime_param_lifetime) ≠ some lifetime then
        (sema.resolve_lifetime_param lifetime).map fun p =>
          NameRefClass.Definition (Definition.GenericParam (GenericParam.LifetimeParam p))
      else none

/-- `Definition::from_node`: structural dispatch on the node kind; the
`ArrayVec<Definition, 2>` result is modelled as a list. -/
def Definition.from_node (sema : Semantics) (node : SyntaxNode) :
    List Definition :=
  match node.data.kind with
  | SyntaxKind.NAME =>
    match NameClass.classify sema node with
    | some (NameClass.Definition it) => [it]
    | some (NameClass.ConstReference it) => [it]
    | some (NameClass.PatFieldShorthand local_def field_ref) =>
        [Definition.Local local_def, Definition.Field field_ref]
    | none => []
  | SyntaxKind.NAME_REF =>
    match NameRefClass.classify sema node with
    | some (NameRefClass.Definition it) => [it]
    | some (NameRefClass.FieldShorthand local_ref field_ref) =>
        [Definition.Local local_ref, Definition.Field field_ref]
    | none => []
  | SyntaxKind.LIFETIME =>
    match (match NameClass.classify_lifetime sema node with
      | some x => NameClass.defined x
      | none =>
        (NameRefClass.classify_lifetime sema node).bind fun cls =>
          match cls with
          | NameRefClass.Definition it => some it
          | _ => none) with
    | some d => [d]
    | none => []
  | _ => []

/-- `Definition::from_token`: parentless tokens yield nothing; an identifier
whose ancestor chain reaches an attribute's token tree is delegated to the
derive-input resolver; everything else goes to `from_node`. -/
def Definition.from_token (sema : Semantics) (token : SyntaxToken) :
    List Definition :=
  match token.parent with
  | none => []
  | some parent =>
    if token.kind = TokenKind.IDENT then
      match ((parent.ancestors.findSome? (castKind SyntaxKind.TOKEN_TREE)).bind
          sema.tt_parent_meta).bind sema.meta_parent_attr with
      | some attr =>
        ((sema.try_resolve_derive_input attr token).map
          Definition.ofPathResolution).toList
      | none => Definition.from_node sema parent
    else Definition.from_node sema parent

/-- `Definition::visibility`. -/
def Definition.visibility (d : Definition) (db : RootDatabase) :
    Option Visibility :=
  match d with
  | Definition.Field sf => some (db.field_visibility sf)
  | Definition.Module it => some (db.module_visibility it)
  | Definition.Function it => some (db.function_visibility it)
  | Definition.Adt it => some (db.adt_visibility it)
  | Definition.Const it => some (db.const_visibility it)
  | Definition.Static it => some (db.static_visibility it)
  | Definition.Trait it => some (db.trait_visibility it)
  | Definition.TypeAlias it => some (db.type_alias_visibility it)
  | Definition.Variant it => some (db.variant_visibility it)
  | Definition.BuiltinType _ => some Visibility.Public
  | Definition.Macro _ => none
  | Definition.SelfType _ => none
  | Definition.Local _ => none
  | Definition.GenericParam _ => none
  | Definition.Label _ => none

end IdeDb

namespace IdeDb

/-- A semantic database whose every query yields a trivial answer; base of
the concrete configurations used by the closed evaluation theorems below. -/
def dbNone : RootDatabase where
  field_visibility := fun _ => Visibility.Public
  module_visibility := fun _ => Visibility.Public
  function_visibility := fun _ => Visibility.Public
  adt_visibility := fun _ => Visibility.Public
  const_visibility := fun _ => Visibility.Public
  static_visibility := fun _ => Visibility.Public
  trait_visibility := fun _ => Visibility.Public
  type_alias_visibility := fun _ => Visibility.Public
  variant_visibility := fun _ => Visibility.Public
  trait_items := fun _ => []
  type_alias_name := fun _ => ""
  macro_kind := fun _ => MacroKind.Declarative
  crate_root_module := fun _ => ⟨0⟩

/-- A semantics facade whose every query fails; concrete scenarios are built
from it by record update. -/
def semaNone : Semantics where
  db := dbNone
  resolve_bind_pat_to_const := fun _ => none
  to_def_ident_pat := fun _ => none
  to_def_self_param := fun _ => none
  to_def_record_field := fun _ => none
  to_def_module := fun _ => none
  to_def_struct := fun _ => none
  to_def_union := fun _ => none
  to_def_enum := fun _ => none
  to_def_trait := fun _ => none
  to_def_static := fun _ => none
  to_def_variant := fun _ => none
  to_def_fn := fun _ => none
  to_def_const := fun _ => none
  to_def_type_alias := fun _ => none
  to_def_macro_item := fun _ => none
  to_def_type_param := fun _ => none
  to_def_const_param := fun _ => none
  to_def_lifetime_param := fun _ => none
  to_def_label := fun _ => none
  resolve_extern_crate := fun _ => none
  resolve_record_pat_field := fun _ => none
  resolve_method_call := fun _ => none
  resolve_field := fun _ => none
  resolve_record_field := fun _ => none
  resolve_path := fun _ => none
  resolve_path_as_macro_def := fun _ => none
  resolve_macro_call := fun _ => none
  resolve_label := fun _ => none
  resolve_lifetime_param := fun _ => none
  tt_parent_meta := fun _ => none
  meta_parent_attr := fun _ => none
  use_tree_path := fun _ => none
  path_segment := fun _ => none
  segment_name_ref := fun _ => none
  name_ref_is_self_token := fun _ => false
  record_pat_field_name_ref := fun _ => none
  assoc_type_arg_name_ref := fun _ => none
  record_expr_field_for_field_name := fun _ => none
  path_qualifier := fun _ => none
  attr_path := fun _ => none
  lifetime_param_lifetime := fun _ => none
  try_resolve_derive_input := fun _ _ => none

/-- Every `from_node` result is empty, a singleton, or a local/field pair. -/
theorem from_node_shape (sema : Semantics) (node : SyntaxNode) :
    Definition.from_node sema node = [] ∨
    (∃ d, Definition.from_node sema node = [d]) ∨
    (∃ l f, Definition.from_node sema node =
      [Definition.Local l, Definition.Field f]) := by
  unfold Definition.from_node
  (repeat' split) <;> simp

/-- Every `from_token` result is empty, a singleton, or a local/field pair. -/
theorem from_token_shape (sema : Semantics) (token : SyntaxToken) :
    Definition.from_token sema token = [] ∨
    (∃ d, Definition.from_token sema token = [d]) ∨
    (∃ l f, Definition.from_token sema token =
      [Definition.Local l, Definition.Field f]) := by
  unfold Definition.from_token
  split
  · left; rfl
  · split
    · split
      · rcases h : Semantics.try_resolve_derive_input _ _ _ <;> simp
      · exact from_node_shape ..
    · exact from_node_shape ..

/-- C1: `from_token` and `from_node` return ordered sequences of at most two
`Definition`s; whenever exactly two are returned, the first is the
local/self-binding (`Definition.Local`) and the second the corresponding
field (`Definition.Field`); the empty sequence is an ordinary outcome. -/
theorem C1_result_shape (sema : Semantics) (token : SyntaxToken)
    (node : SyntaxNode) :
    (Definition.from_token sema token).length ≤ 2 ∧
    (Definition.from_node sema node).length ≤ 2 ∧
    (∀ a b, Definition.from_token sema token = [a, b] →
      (∃ l, a = Definition.Local l) ∧ ∃ f, b = Definition.Field f) ∧
    (∀ a b, Definition.from_node sema node = [a, b] →
      (∃ l, a = Definition.Local l) ∧ ∃ f, b = Definition.Field f) := by
  refine ⟨?_, ?_, ?_, ?_⟩
  · rcases from_token_shape sema token with h | ⟨d, h⟩ | ⟨l, f, h⟩ <;> simp [h]
  · rcases from_node_shape sema node with h | ⟨d, h⟩ | ⟨l, f, h⟩ <;> simp [h]
  · intro a b hab
    rcases from_token_shape sema token with h | ⟨d, h⟩ | ⟨l, f, h⟩ <;>
      rw [h] at hab <;> simp at hab
    exact ⟨⟨l, hab.1.symm⟩, f, hab.2.symm⟩
  · intro a b hab
    rcases from_node_shape sema node with h | ⟨d, h⟩ | ⟨l, f, h⟩ <;>
      rw [h] at hab <;> simp at hab
    exact ⟨⟨l, hab.1.symm⟩, f, hab.2.symm⟩

/-- A `Name` node whose ident-pat sits in record-pat-field shorthand
position: `if let S { x } = v`. -/
def patName : SyntaxNode :=
  ⟨⟨SyntaxKind.NAME, 1, "x"⟩,
   [⟨SyntaxKind.IDENT_PAT, 2, "x"⟩, ⟨SyntaxKind.RECORD_PAT_FIELD, 3, ""⟩]⟩

/-- Facade realizing the shorthand scenario for `patName`. -/
def semaPat : Semantics :=
  { semaNone with
    to_def_ident_pat := fun n => if n.data.id = 2 then some ⟨10⟩ else none
    resolve_record_pat_field := fun n => if n.data.id = 3 then some ⟨11⟩ else none }

theorem C1_result_shape_witness :
    Definition.from_node semaPat patName =
      [Definition.Local ⟨10⟩, Definition.Field ⟨11⟩] ∧
    ((∃ l, Definition.Local (⟨10⟩ : Local) = Definition.Local l) ∧
      ∃ f, Definition.Field (⟨11⟩ : Field) = Definition.Field f) :=
  ⟨by decide,
   (C1_result_shape semaPat ⟨TokenKind.IDENT, 0, none⟩ patName).2.2.2
     (Definition.Local ⟨10⟩) (Definition.Field ⟨11⟩) (by decide)⟩

/-- C9: `Definition::visibility` is the declared visibility for the
item-like variants, always public for `BuiltinType`, and `none` for
`Macro`, `SelfType`, `Local`, `GenericParam`, `Label`. -/
theorem C9_visibility_cases (db : RootDatabase) :
    (∀ f, Definition.visibility (Definition.Field f) db =
      some (db.field_visibility f)) ∧
    (∀ m, Definition.visibility (Definition.Module m) db =
      some (db.module_visibility m)) ∧
    (∀ f, Definition.visibility (Definition.Function f) db =
      some (db.function_visibility f)) ∧
    (∀ a, Definition.visibility (Definition.Adt a) db =
      some (db.adt_visibility a)) ∧
    (∀ c, Definition.visibility (Definition.Const c) db =
      some (db.const_visibility c)) ∧
    (∀ s, Definition.visibility (Definition.Static s) db =
      some (db.static_visibility s)) ∧
    (∀ t, Definition.visibility (Definition.Trait t) db =
      some (db.trait_visibility t)) ∧
    (∀ t, Definition.visibility (Definition.TypeAlias t) db =
      some (db.type_alias_visibility t)) ∧
    (∀ v, Definition.visibility (Definition.Variant v) db =
      some (db.variant_visibility v)) ∧
    (∀ b, Definition.visibility (Definition.BuiltinType b) db =
      some Visibility.Public) ∧
    (∀ m, Definition.visibility (Definition.Macro m) db = none) ∧
    (∀ i, Definition.visibility (Definition.SelfType i) db = none) ∧
    (∀ l, Definition.visibility (Definition.Local l) db = none) ∧
    (∀ p, Definition.visibility (Definition.GenericParam p) db = none) ∧
    (∀ l, Definition.visibility (Definition.Label l) db = none) :=
  ⟨fun _ => rfl, fun _ => rfl, fun _ => rfl, fun _ => rfl, fun _ => rfl,
   fun _ => rfl, fun _ => rfl, fun _ => rfl, fun _ => rfl, fun _ => rfl,
   fun _ => rfl, fun _ => rfl, fun _ => rfl, fun _ => rfl, fun _ => rfl⟩

end IdeDb

namespace IdeDb

/-- `NameClass::classify_lifetime` only ever produces the `Definition`
variant. -/
theorem NameClass_classify_lifetime_shape (sema : Semantics) (l : SyntaxNode)
    (x : NameClass) (hx : NameClass.classify_lifetime sema l = some x) :
    ∃ d, x = NameClass.Definition d := by
  unfold NameClass.classify_lifetime at hx
  split at hx
  · exact absurd hx (by simp)
  · split at hx
    all_goals try (rcases Option.map_eq_some'.1 hx with ⟨d, -, rfl⟩; exact ⟨_, rfl⟩)
    exact absurd hx (by simp)

/-- `NameRefClass::classify_lifetime` only ever produces the `Definition`
variant. -/
theorem NameRefClass_classify_lifetime_shape (sema : Semantics)
    (l : SyntaxNode) (y : NameRefClass)
    (hy : NameRefClass.classify_lifetime sema l = some y) :
    ∃ d, y = NameRefClass.Definition d := by
  unfold NameRefClass.classify_lifetime at hy
  split at hy
  · exact absurd hy (by simp)
  · split at hy
    all_goals try (rcases Option.map_eq_some'.1 hy with ⟨d, -, rfl⟩; exact ⟨_, rfl⟩)
    split at hy
    · rcases Option.map_eq_some'.1 hy with ⟨d, -, rfl⟩; exact ⟨_, rfl⟩
    · exact absurd hy (by simp)

/-- C7: on a `Lifetime` node, `from_node` tries lifetime-definition
classification first and only on `none` falls back to lifetime-reference
classification keeping only `Definition` outcomes; neither lifetime
classifier produces `ConstReference` or a shorthand, and at most one
`Definition` results. -/
theorem C7_lifetime_dispatch (sema : Semantics) (node : SyntaxNode)
    (h : node.data.kind = SyntaxKind.LIFETIME) :
    (∀ x, NameClass.classify_lifetime sema node = some x →
        ∃ d, x = NameClass.Definition d) ∧
    (∀ y, NameRefClass.classify_lifetime sema node = some y →
        ∃ d, y = NameRefClass.Definition d) ∧
    (Definition.from_node sema node).length ≤ 1 ∧
    (∀ x, NameClass.classify_lifetime sema node = some x →
        Definition.from_node sema node = (NameClass.defined x).toList) ∧
    (NameClass.classify_lifetime sema node = none →
        Definition.from_node sema node =
          ((NameRefClass.classify_lifetime sema node).bind fun cls =>
            match cls with
            | NameRefClass.Definition it => some it
            | _ => none).toList) := by
  refine ⟨fun x hx => NameClass_classify_lifetime_shape sema node x hx,
          fun y hy => NameRefClass_classify_lifetime_shape sema node y hy,
          ?_, ?_, ?_⟩
  · rcases hx : NameClass.classify_lifetime sema node with - | x
    · rcases hy : NameRefClass.classify_lifetime sema node with - | cls
      · simp [Definition.from_node, h, hx, hy]
      · cases cls <;> simp [Definition.from_node, h, hx, hy]
    · cases hd : NameClass.defined x <;>
        simp [Definition.from_node, h, hx, hd]
  · intro x hx
    cases hd : NameClass.defined x <;>
      simp [Definition.from_node, h, hx, hd]
  · intro hx
    rcases hy : NameRefClass.classify_lifetime sema node with - | cls
    · simp [Definition.from_node, h, hx, hy]
    · cases cls <;> simp [Definition.from_node, h, hx, hy]

/-- Concrete lifetime scenario: `'a` declared as a lifetime parameter. -/
def node7 : SyntaxNode :=
  ⟨⟨SyntaxKind.LIFETIME, 20, "a"⟩, [⟨SyntaxKind.LIFETIME_PARAM, 21, ""⟩]⟩

def sema7 : Semantics :=
  { semaNone with
    to_def_lifetime_param := fun n => if n.data.id = 21 then some ⟨30⟩ else none }

theorem C7_lifetime_dispatch_witness :
    Definition.from_node sema7 node7 =
      (NameClass.defined (NameClass.Definition (Definition.GenericParam
        (GenericParam.LifetimeParam ⟨30⟩)))).toList :=
  (C7_lifetime_dispatch sema7 node7 (by decide)).2.2.2.1 _ (by decide)

/-- The record-pattern shorthand condition of the identifier-pattern rule:
the pattern sits in a record-pattern field position with no explicit field
name written, and it resolves against a struct field. -/
def patFieldShorthandField (sema : Semantics) (bind_pat : SyntaxNode) :
    Option Field :=
  match bind_pat.parent.bind (castKind SyntaxKind.RECORD_PAT_FIELD) with
  | some record_pat_field =>
    if (sema.record_pat_field_name_ref record_pat_field).isNone then
      sema.resolve_record_pat_field record_pat_field
    else none
  | none => none

/-- C2: for a `Name` under an identifier pattern, the constant check comes
first and short-circuits to `ConstReference`; otherwise (when the pattern
has a local definition) a successful record-pattern shorthand condition
yields `PatFieldShorthand` and anything else yields `Definition (Local _)`. -/
theorem C2_ident_pat_classification (sema : Semantics)
    (name parent : SyntaxNode) (hp : name.parent = some parent)
    (hk : parent.data.kind = SyntaxKind.IDENT_PAT) :
    (∀ d, sema.resolve_bind_pat_to_const parent = some d →
      NameClass.classify sema name =
        some (NameClass.ConstReference (Definition.ofModuleDef d))) ∧
    (sema.resolve_bind_pat_to_const parent = none →
      ∀ l, sema.to_def_ident_pat parent = some l →
        (∀ f, patFieldShorthandField sema parent = some f →
          NameClass.classify sema name =
            some (NameClass.PatFieldShorthand l f)) ∧
        (patFieldShorthandField sema parent = none →
          NameClass.classify sema name =
            some (NameClass.Definition (Definition.Local l)))) := by
  constructor
  · intro d hd
    simp [NameClass.classify, hp, castKind, hk, hd]
  · intro hnone l hl
    have hcast : castKind SyntaxKind.IDENT_PAT parent = some parent := by
      simp [castKind, hk]
    constructor
    · intro f hf
      unfold patFieldShorthandField at hf
      rcases hb : parent.parent.bind (castKind SyntaxKind.RECORD_PAT_FIELD)
          with - | rpf
      · rw [hb] at hf; cases hf
      · rw [hb] at hf
        by_cases hnr : (sema.record_pat_field_name_ref rpf).isNone = true
        · simp [hnr] at hf
          simp [NameClass.classify, hp, hcast, hk, hnone, hl, hb, hnr, hf]
        · simp [hnr] at hf
    · intro hf
      unfold patFieldShorthandField at hf
      rcases hb : parent.parent.bind (castKind SyntaxKind.RECORD_PAT_FIELD)
          with - | rpf
      · simp [NameClass.classify, hp, hcast, hk, hnone, hl, hb]
      · rw [hb] at hf
        by_cases hnr : (sema.record_pat_field_name_ref rpf).isNone = true
        · simp [hnr] at hf
          simp [NameClass.classify, hp, hcast, hk, hnone, hl, hb, hnr, hf]
        · simp [hnr] at hf
          simp [NameClass.classify, hp, hcast, hk, hnone, hl, hb, hnr]

/-- The ident-pat parent of `patName`. -/
def patIdent : SyntaxNode :=
  ⟨⟨SyntaxKind.IDENT_PAT, 2, "x"⟩, [⟨SyntaxKind.RECORD_PAT_FIELD, 3, ""⟩]⟩

theorem C2_ident_pat_classification_witness :
    NameClass.classify semaPat patName =
      some (NameClass.PatFieldShorthand ⟨10⟩ ⟨11⟩) :=
  ((C2_ident_pat_classification semaPat patName patIdent (by decide)
    (by decide)).2 (by decide) ⟨10⟩ (by decide)).1 ⟨11⟩ (by decide)

end IdeDb

namespace IdeDb

/-- C8: a token with no syntactic parent yields the empty sequence; an
identifier token whose ancestor chain passes through an attribute's token
tree (as a derive attribute's argument list does) is resolved entirely by
the external derive-input resolver, yielding at most one `Definition` and
never reaching `from_node`'s ordinary classification. -/
theorem C8_from_token_derive (sema : Semantics) (token : SyntaxToken) :
    (token.parent = none → Definition.from_token sema token = []) ∧
    (∀ parent attr, token.parent = some parent →
      token.kind = TokenKind.IDENT →
      ((parent.ancestors.findSome? (castKind SyntaxKind.TOKEN_TREE)).bind
          sema.tt_parent_meta).bind sema.meta_parent_attr = some attr →
      Definition.from_token sema token =
        ((sema.try_resolve_derive_input attr token).map
          Definition.ofPathResolution).toList ∧
      (Definition.from_token sema token).length ≤ 1) := by
  constructor
  · intro h
    simp [Definition.from_token, h]
  · intro parent attr hp hi ha
    have he : Definition.from_token sema token =
        ((sema.try_resolve_derive_input attr token).map
          Definition.ofPathResolution).toList := by
      simp [Definition.from_token, hp, hi, ha]
    refine ⟨he, ?_⟩
    rw [he]
    cases sema.try_resolve_derive_input attr token <;> simp

/-- C10: the bypass in `from_token` triggers for an identifier under the
token tree of ANY attribute, derive or not; the result is exactly what the
derive-input resolver returns (possibly empty), and the ordinary
classification functions are never consulted: facades differing only
outside the attribute chain and the resolver give the same result. -/
theorem C10_any_attr_bypass (sema sema' : Semantics) (token : SyntaxToken)
    (parent attr : SyntaxNode) (hp : token.parent = some parent)
    (hi : token.kind = TokenKind.IDENT)
    (ha : ((parent.ancestors.findSome? (castKind SyntaxKind.TOKEN_TREE)).bind
        sema.tt_parent_meta).bind sema.meta_parent_attr = some attr) :
    Definition.from_token sema token =
      ((sema.try_resolve_derive_input attr token).map
        Definition.ofPathResolution).toList ∧
    (sema.try_resolve_derive_input attr token = none →
      Definition.from_token sema token = []) ∧
    (sema'.tt_parent_meta = sema.tt_parent_meta →
      sema'.meta_parent_attr = sema.meta_parent_attr →
      sema'.try_resolve_derive_input = sema.try_resolve_derive_input →
      Definition.from_token sema' token = Definition.from_token sema token) := by
  have he : Definition.from_token sema token =
      ((sema.try_resolve_derive_input attr token).map
        Definition.ofPathResolution).toList := by
    simp [Definition.from_token, hp, hi, ha]
  refine ⟨he, fun hn => by rw [he, hn]; rfl, fun h1 h2 h3 => ?_⟩
  have ha' : ((parent.ancestors.findSome?
      (castKind SyntaxKind.TOKEN_TREE)).bind
        sema'.tt_parent_meta).bind sema'.meta_parent_attr = some attr := by
    rw [h1, h2]; exact ha
  have he' : Definition.from_token sema' token =
      ((sema'.try_resolve_derive_input attr token).map
        Definition.ofPathResolution).toList := by
    simp [Definition.from_token, hp, hi, ha']
  rw [he', he, h3]

/-- Concrete attribute scenario: an identifier token inside
`#[some_attr(...)]`'s token tree. -/
def attrNode10 : SyntaxNode := ⟨⟨SyntaxKind.ATTR, 43, ""⟩, []⟩

def metaNode10 : SyntaxNode :=
  ⟨⟨SyntaxKind.META, 42, ""⟩, [⟨SyntaxKind.ATTR, 43, ""⟩]⟩

def ttNode10 : SyntaxNode :=
  ⟨⟨SyntaxKind.TOKEN_TREE, 41, ""⟩,
   [⟨SyntaxKind.META, 42, ""⟩, ⟨SyntaxKind.ATTR, 43, ""⟩]⟩

def tok10 : SyntaxToken := ⟨TokenKind.IDENT, 40, some ttNode10⟩

def sema10 : Semantics :=
  { semaNone with
    tt_parent_meta := fun n => if n.data.id = 41 then some metaNode10 else none
    meta_parent_attr := fun n => if n.data.id = 42 then some attrNode10 else none
    try_resolve_derive_input := fun a t =>
      if a.data.id = 43 ∧ t.id = 40 then
        some (PathResolution.Def (ModuleDef.Adt (Adt.Struct ⟨50⟩)))
      else none }

theorem C8_from_token_derive_witness :
    Definition.from_token sema10 tok10 =
      ((sema10.try_resolve_derive_input attrNode10 tok10).map
        Definition.ofPathResolution).toList ∧
    (Definition.from_token sema10 tok10).length ≤ 1 :=
  (C8_from_token_derive sema10 tok10).2 ttNode10 attrNode10
    (by decide) (by decide) (by decide)

theorem C10_any_attr_bypass_witness :
    Definition.from_token sema10 tok10 =
      ((sema10.try_resolve_derive_input attrNode10 tok10).map
        Definition.ofPathResolution).toList ∧
    (sema10.try_resolve_derive_input attrNode10 tok10 = none →
      Definition.from_token sema10 tok10 = []) ∧
    (sema10.tt_parent_meta = sema10.tt_parent_meta →
      sema10.meta_parent_attr = sema10.meta_parent_attr →
      sema10.try_resolve_derive_input = sema10.try_resolve_derive_input →
      Definition.from_token sema10 tok10 = Definition.from_token sema10 tok10) :=
  C10_any_attr_bypass sema10 sema10 tok10 ttNode10 attrNode10
    (by decide) (by decide) (by decide)

end IdeDb

namespace IdeDb

/-- C5: classifying the name of a rename clause.  For a use-tree rename the
original (pre-rename) path segment is classified via `NameRefClass` — with
the "self" segment first climbing to the parent use-tree's own segment —
and the delegated result is collapsed (`FieldShorthand` to its plain field
half) and wrapped as a `Definition`; for an extern-crate rename the crate's
root module is resolved directly. -/
theorem C5_rename_classification (sema : Semantics) (name parent : SyntaxNode)
    (hp : name.parent = some parent)
    (hk : parent.data.kind = SyntaxKind.RENAME) :
    (∀ use_tree path seg nr,
      parent.parent = some use_tree →
      use_tree.data.kind = SyntaxKind.USE_TREE →
      sema.use_tree_path use_tree = some path →
      sema.path_segment path = some seg →
      sema.segment_name_ref seg = some nr →
      (sema.name_ref_is_self_token nr = false →
        NameClass.classify sema name =
          (NameRefClass.classify sema nr).map fun c =>
            NameClass.Definition (renameCollapse c)) ∧
      (sema.name_ref_is_self_token nr = true →
        (∀ nr2, selfSegmentClimb sema use_tree = some nr2 →
          NameClass.classify sema name =
            (NameRefClass.classify sema nr2).map fun c =>
              NameClass.Definition (renameCollapse c)) ∧
        (selfSegmentClimb sema use_tree = none →
          NameClass.classify sema name =
            (NameRefClass.classify sema nr).map fun c =>
              NameClass.Definition (renameCollapse c)))) ∧
    (∀ ec, parent.parent = some ec →
      ec.data.kind = SyntaxKind.EXTERN_CRATE →
      NameClass.classify sema name =
        (sema.resolve_extern_crate ec).map fun krate =>
          NameClass.Definition (Definition.Module
            (sema.db.crate_root_module krate))) ∧
    (∀ l f, renameCollapse (NameRefClass.FieldShorthand l f) =
      Definition.Field f) := by
  refine ⟨?_, ?_, fun l f => rfl⟩
  · intro use_tree path seg nr hut hutk h1 h2 h3
    constructor
    · intro hself
      simp [NameClass.classify, hp, castKind, hk, hut, hutk, h1, h2, h3, hself]
    · intro hself
      constructor
      · intro nr2 hclimb
        simp [NameClass.classify, hp, castKind, hk, hut, hutk, h1, h2, h3,
          hself, hclimb]
      · intro hclimb
        simp [NameClass.classify, hp, castKind, hk, hut, hutk, h1, h2, h3,
          hself, hclimb]
  · intro ec hut heck
    simp [NameClass.classify, hp, castKind, hk, hut, heck]

/-- Concrete `use foo::bar::{self as baz}` scenario. -/
def path5 : SyntaxNode := ⟨⟨SyntaxKind.PATH, 65, ""⟩, []⟩
def seg5 : SyntaxNode := ⟨⟨SyntaxKind.PATH_SEGMENT, 66, ""⟩, []⟩
def nrSelf5 : SyntaxNode := ⟨⟨SyntaxKind.NAME_REF, 67, "self"⟩, []⟩
def path5b : SyntaxNode := ⟨⟨SyntaxKind.PATH, 68, ""⟩, []⟩
def seg5b : SyntaxNode := ⟨⟨SyntaxKind.PATH_SEGMENT, 69, ""⟩, []⟩
def nrBar5 : SyntaxNode :=
  ⟨⟨SyntaxKind.NAME_REF, 70, "bar"⟩,
   [⟨SyntaxKind.PATH_SEGMENT, 71, ""⟩, ⟨SyntaxKind.PATH, 72, ""⟩]⟩

def name5 : SyntaxNode :=
  ⟨⟨SyntaxKind.NAME, 60, "baz"⟩,
   [⟨SyntaxKind.RENAME, 61, ""⟩, ⟨SyntaxKind.USE_TREE, 62, ""⟩,
    ⟨SyntaxKind.USE_TREE_LIST, 63, ""⟩, ⟨SyntaxKind.USE_TREE, 64, ""⟩]⟩

def parent5 : SyntaxNode :=
  ⟨⟨SyntaxKind.RENAME, 61, ""⟩,
   [⟨SyntaxKind.USE_TREE, 62, ""⟩, ⟨SyntaxKind.USE_TREE_LIST, 63, ""⟩,
    ⟨SyntaxKind.USE_TREE, 64, ""⟩]⟩

def useTree5 : SyntaxNode :=
  ⟨⟨SyntaxKind.USE_TREE, 62, ""⟩,
   [⟨SyntaxKind.USE_TREE_LIST, 63, ""⟩, ⟨SyntaxKind.USE_TREE, 64, ""⟩]⟩

def sema5 : Semantics :=
  { semaNone with
    use_tree_path := fun n =>
      if n.data.id = 62 then some path5
      else if n.data.id = 64 then some path5b else none
    path_segment := fun n =>
      if n.data.id = 65 then some seg5
      else if n.data.id = 68 then some seg5b else none
    segment_name_ref := fun n =>
      if n.data.id = 66 then some nrSelf5
      else if n.data.id = 69 then some nrBar5 else none
    name_ref_is_self_token := fun n => n.data.id == 67
    resolve_path := fun n =>
      if n.data.id = 72 then some (PathResolution.Def (ModuleDef.Module ⟨80⟩))
      else none }

theorem C5_rename_classification_witness :
    NameClass.classify sema5 name5 =
      (NameRefClass.classify sema5 nrBar5).map fun c =>
        NameClass.Definition (renameCollapse c) :=
  (((C5_rename_classification sema5 name5 parent5 (by decide) (by decide)).1
    useTree5 path5 seg5 nrSelf5 (by decide) (by decide) (by decide) (by decide)
    (by decide)).2 (by decide)).1 nrBar5 (by decide)

end IdeDb

namespace IdeDb

/-- C6: an associated-type-binding name (`Trait<Assoc = Ty>`) resolves the
qualifying path; only when it denotes a trait is that trait's own item list
linearly searched for a type alias with matching textual name, yielding
`Definition (TypeAlias _)`; every failure (no path, unresolved path,
non-trait resolution, no matching alias) yields no classification — the
case never falls through to generic path resolution, and the search never
looks beyond the trait's own items. -/
theorem C6_assoc_type_binding (sema : Semantics) (name_ref parent : SyntaxNode)
    (hp : name_ref.parent = some parent)
    (hk : parent.data.kind = SyntaxKind.ASSOC_TYPE_ARG)
    (hnr : sema.assoc_type_arg_name_ref parent = some name_ref)
    (href : sema.record_expr_field_for_field_name name_ref = none) :
    NameRefClass.classify sema name_ref = assocTypeArgResolution sema name_ref ∧
    (∀ path tr ty,
      name_ref.ancestors.findSome? (castKind SyntaxKind.PATH) = some path →
      sema.resolve_path path = some (PathResolution.Def (ModuleDef.Trait tr)) →
      ((sema.db.trait_items tr).filterMap assocTypeAlias).find?
        (fun al => sema.db.type_alias_name al = name_ref.data.text) = some ty →
      NameRefClass.classify sema name_ref =
        some (NameRefClass.Definition (Definition.TypeAlias ty)) ∧
      AssocItem.TypeAlias ty ∈ sema.db.trait_items tr ∧
      sema.db.type_alias_name ty = name_ref.data.text) ∧
    (∀ path tr,
      name_ref.ancestors.findSome? (castKind SyntaxKind.PATH) = some path →
      sema.resolve_path path = some (PathResolution.Def (ModuleDef.Trait tr)) →
      ((sema.db.trait_items tr).filterMap assocTypeAlias).find?
        (fun al => sema.db.type_alias_name al = name_ref.data.text) = none →
      NameRefClass.classify sema name_ref = none) ∧
    (∀ path r,
      name_ref.ancestors.findSome? (castKind SyntaxKind.PATH) = some path →
      sema.resolve_path path = some r →
      (∀ tr, r ≠ PathResolution.Def (ModuleDef.Trait tr)) →
      NameRefClass.classify sema name_ref = none) ∧
    (∀ path,
      name_ref.ancestors.findSome? (castKind SyntaxKind.PATH) = some path →
      sema.resolve_path path = none →
      NameRefClass.classify sema name_ref = none) ∧
    (name_ref.ancestors.findSome? (castKind SyntaxKind.PATH) = none →
      NameRefClass.classify sema name_ref = none) := by
  have hred : NameRefClass.classify sema name_ref =
      assocTypeArgResolution sema name_ref := by
    simp [NameRefClass.classify, hp, castKind, hk, href, hnr]
  refine ⟨hred, ?_, ?_, ?_, ?_, ?_⟩
  · intro path tr ty hpath hres hfind
    refine ⟨?_, ?_, ?_⟩
    · rw [hred]; simp [assocTypeArgResolution, hpath, hres, hfind]
    · rcases List.mem_filterMap.1 (List.mem_of_find?_eq_some hfind)
        with ⟨a, ha, hfa⟩
      cases a with
      | Function f => exact absurd hfa (by simp [assocTypeAlias])
      | Const c => exact absurd hfa (by simp [assocTypeAlias])
      | TypeAlias t =>
        simp only [assocTypeAlias, Option.some.injEq] at hfa
        subst hfa; exact ha
    · have hpred := List.find?_some hfind
      simp only [decide_eq_true_eq] at hpred
      exact hpred
  · intro path tr hpath hres hfind
    rw [hred]; simp [assocTypeArgResolution, hpath, hres, hfind]
  · intro path r hpath hres hne
    rw [hred]
    rcases r with d | i | l | tp | mq | st | cp
    · rcases d with mm | ff | aa | vv | cc | ss | tr | tt | bb <;>
        first
          | exact absurd rfl (hne _)
          | simp [assocTypeArgResolution, hpath, hres]
    all_goals simp [assocTypeArgResolution, hpath, hres]
  · intro path hpath hres
    rw [hred]; simp [assocTypeArgResolution, hpath, hres]
  · intro hpath
    rw [hred]; simp [assocTypeArgResolution, hpath]

/-- Concrete `Trait<Assoc = Ty>` scenario. -/
def nameRef6 : SyntaxNode :=
  ⟨⟨SyntaxKind.NAME_REF, 90, "Assoc"⟩,
   [⟨SyntaxKind.ASSOC_TYPE_ARG, 91, ""⟩, ⟨SyntaxKind.OTHER, 92, ""⟩,
    ⟨SyntaxKind.PATH_SEGMENT, 93, ""⟩, ⟨SyntaxKind.PATH, 94, ""⟩]⟩

def parent6 : SyntaxNode :=
  ⟨⟨SyntaxKind.ASSOC_TYPE_ARG, 91, ""⟩,
   [⟨SyntaxKind.OTHER, 92, ""⟩, ⟨SyntaxKind.PATH_SEGMENT, 93, ""⟩,
    ⟨SyntaxKind.PATH, 94, ""⟩]⟩

def path6 : SyntaxNode :=
  ⟨⟨SyntaxKind.PATH, 94, ""⟩, []⟩

def db6 : RootDatabase :=
  { dbNone with
    trait_items := fun t =>
      if t.id = 100 then
        [AssocItem.Function ⟨1⟩, AssocItem.TypeAlias ⟨101⟩]
      else []
    type_alias_name := fun t => if t.id = 101 then "Assoc" else "" }

def sema6 : Semantics :=
  { semaNone with
    db := db6
    assoc_type_arg_name_ref := fun n =>
      if n.data.id = 91 then some nameRef6 else none
    resolve_path := fun n =>
      if n.data.id = 94 then
        some (PathResolution.Def (ModuleDef.Trait ⟨100⟩))
      else none }

theorem C6_assoc_type_binding_witness :
    NameRefClass.classify sema6 nameRef6 =
      some (NameRefClass.Definition (Definition.TypeAlias ⟨101⟩)) ∧
    AssocItem.TypeAlias ⟨101⟩ ∈ sema6.db.trait_items ⟨100⟩ ∧
    sema6.db.type_alias_name ⟨101⟩ = nameRef6.data.text :=
  (C6_assoc_type_binding sema6 nameRef6 parent6 (by decide) (by decide)
    (by decide) (by decide)).2.1 path6 ⟨100⟩ ⟨101⟩ (by decide) (by decide)
    (by decide)

end IdeDb

namespace IdeDb

/-- C4: for a path-shaped name-ref (outside the special contexts and with
the unqualified-macro-call subcase not firing), classification follows the
attribute three-way outcome: the attribute's own path resolves strictly as
an attribute-kind macro; a qualifier of the attribute's path keeps only a
`Module` resolution; a path inside the attribute but not part of its own
path yields no classification; a path unrelated to any attribute resolves
generically and converts to a `Definition`. -/
theorem C4_attribute_three_way (sema : Semantics)
    (name_ref parent path : SyntaxNode)
    (hp : name_ref.parent = some parent)
    (hk : parent.data.kind = SyntaxKind.PATH_SEGMENT)
    (href : sema.record_expr_field_for_field_name name_ref = none)
    (hpath : name_ref.ancestors.findSome? (castKind SyntaxKind.PATH) =
      some path)
    (hmc : (path.parent.bind (castKind SyntaxKind.MACRO_CALL)).bind
        sema.resolve_macro_call = none) :
    NameRefClass.classify sema name_ref = pathShapedResolution sema path ∧
    (∀ attr, (topPath path).ancestors.findSome? (castKind SyntaxKind.ATTR) =
        some attr →
      sema.attr_path attr = some (topPath path) →
      (path = topPath path →
        NameRefClass.classify sema name_ref =
          match sema.resolve_path_as_macro_def path with
          | some mac =>
            if sema.db.macro_kind mac = MacroKind.Attr then
              some (NameRefClass.Definition (Definition.Macro mac))
            else none
          | none => none) ∧
      (path ≠ topPath path →
        NameRefClass.classify sema name_ref =
          match sema.resolve_path path with
          | some (PathResolution.Def (ModuleDef.Module module)) =>
            some (NameRefClass.Definition (Definition.Module module))
          | some _ => none
          | none => none)) ∧
    (∀ attr, (topPath path).ancestors.findSome? (castKind SyntaxKind.ATTR) =
        some attr →
      sema.attr_path attr ≠ some (topPath path) →
      NameRefClass.classify sema name_ref = none) ∧
    ((topPath path).ancestors.findSome? (castKind SyntaxKind.ATTR) = none →
      NameRefClass.classify sema name_ref =
        (sema.resolve_path path).map fun res =>
          NameRefClass.Definition (Definition.ofPathResolution res)) := by
  have hred : NameRefClass.classify sema name_ref =
      pathShapedResolution sema path := by
    simp [NameRefClass.classify, hp, castKind, hk, href, hpath]
  refine ⟨hred, ?_, ?_, ?_⟩
  · intro attr hattr heq
    constructor
    · intro htop
      rw [hred]
      simp [pathShapedResolution, hmc, hattr, heq, eq_true htop]
    · intro htop
      rw [hred]
      simp [pathShapedResolution, hmc, hattr, heq, htop]
  · intro attr hattr hne
    rw [hred]
    simp [pathShapedResolution, hmc, hattr, hne]
  · intro hattr
    rw [hred]
    simp [pathShapedResolution, hmc, hattr]

/-- Concrete unrelated-path scenario for C4: a plain path expression with
no attribute in scope. -/
def nameRef4 : SyntaxNode :=
  ⟨⟨SyntaxKind.NAME_REF, 110, "x"⟩,
   [⟨SyntaxKind.PATH_SEGMENT, 111, ""⟩, ⟨SyntaxKind.PATH, 112, ""⟩,
    ⟨SyntaxKind.OTHER, 113, ""⟩]⟩

def parent4 : SyntaxNode :=
  ⟨⟨SyntaxKind.PATH_SEGMENT, 111, ""⟩,
   [⟨SyntaxKind.PATH, 112, ""⟩, ⟨SyntaxKind.OTHER, 113, ""⟩]⟩

def path4 : SyntaxNode :=
  ⟨⟨SyntaxKind.PATH, 112, ""⟩, [⟨SyntaxKind.OTHER, 113, ""⟩]⟩

def sema4 : Semantics :=
  { semaNone with
    resolve_path := fun n =>
      if n.data.id = 112 then
        some (PathResolution.Def (ModuleDef.Function ⟨120⟩))
      else none }

theorem C4_attribute_three_way_witness :
    NameRefClass.classify sema4 nameRef4 =
      (sema4.resolve_path path4).map fun res =>
        NameRefClass.Definition (Definition.ofPathResolution res) :=
  (C4_attribute_three_way sema4 nameRef4 parent4 path4 (by decide) (by decide)
    (by decide) (by decide) (by decide)).2.2.2 (by decide)

end IdeDb

namespace IdeDb

/-- One step of the `NameRefClass` precedence list (spec §4.3): either the
context does not match and classification continues (`pass`), or it matches
and decides the final answer — `decided none` is a decided "no
classification". -/
inductive ContextStep where
  | pass
  | decided (r : Option NameRefClass)

/-- First-match-wins evaluation of the precedence list; a name-ref matching
no context yields no classification. -/
def firstDecision : List ContextStep → Option NameRefClass
  | [] => none
  | ContextStep.pass :: rest => firstDecision rest
  | ContextStep.decided r :: _ => r

/-- Spec context 1: method-call name, resolved to its callee function. -/
def ctxMethodCall (sema : Semantics) (parent : SyntaxNode) : ContextStep :=
  match (castKind SyntaxKind.METHOD_CALL_EXPR parent).bind
      sema.resolve_method_call with
  | some func => ContextStep.decided
      (some (NameRefClass.Definition (Definition.Function func)))
  | none => ContextStep.pass

/-- Spec context 2: field-access expression. -/
def ctxFieldExpr (sema : Semantics) (parent : SyntaxNode) : ContextStep :=
  match (castKind SyntaxKind.FIELD_EXPR parent).bind sema.resolve_field with
  | some field => ContextStep.decided
      (some (NameRefClass.Definition (Definition.Field field)))
  | none => ContextStep.pass

/-- Spec context 3: record-construction field name; a same-named local in
scope yields the shorthand pair. -/
def ctxRecordExprField (sema : Semantics) (name_ref : SyntaxNode) :
    ContextStep :=
  match (sema.record_expr_field_for_field_name name_ref).bind
      sema.resolve_record_field with
  | some (field, some l) => ContextStep.decided
      (some (NameRefClass.FieldShorthand l field))
  | some (field, none) => ContextStep.decided
      (some (NameRefClass.Definition (Definition.Field field)))
  | none => ContextStep.pass

/-- Spec context 4: record-pattern field name. -/
def ctxRecordPatField (sema : Semantics) (parent : SyntaxNode) : ContextStep :=
  match (castKind SyntaxKind.RECORD_PAT_FIELD parent).bind
      sema.resolve_record_pat_field with
  | some field => ContextStep.decided
      (some (NameRefClass.Definition (Definition.Field field)))
  | none => ContextStep.pass

/-- Spec context 5: associated-type-binding name; once matched it decides,
even when the trait search fails. -/
def ctxAssocTypeArg (sema : Semantics) (parent name_ref : SyntaxNode) :
    ContextStep :=
  if parent.data.kind = SyntaxKind.ASSOC_TYPE_ARG ∧
      sema.assoc_type_arg_name_ref parent = some name_ref then
    ContextStep.decided (assocTypeArgResolution sema name_ref)
  else ContextStep.pass

/-- Spec context 6: path-shaped name; once a path ancestor exists it
decides. -/
def ctxPathShaped (sema : Semantics) (name_ref : SyntaxNode) : ContextStep :=
  match name_ref.ancestors.findSome? (castKind SyntaxKind.PATH) with
  | some path => ContextStep.decided (pathShapedResolution sema path)
  | none => ContextStep.pass

/-- Spec context 7: extern-crate declaration name. -/
def ctxExternCrate (sema : Semantics) (parent : SyntaxNode) : ContextStep :=
  match castKind SyntaxKind.EXTERN_CRATE parent with
  | some extern_crate => ContextStep.decided
      (match sema.resolve_extern_crate extern_crate with
       | some krate => some (NameRefClass.Definition
           (Definition.Module (sema.db.crate_root_module krate)))
       | none => none)
  | none => ContextStep.pass

/-- C3: `NameRefClass::classify` is exactly the first-match-wins evaluation
of the seven contexts in their fixed precedence order; a name-ref matching
none of them yields no classification (`firstDecision` of all-pass is
`none`). -/
theorem C3_precedence_order (sema : Semantics) (name_ref parent : SyntaxNode)
    (hp : name_ref.parent = some parent) :
    NameRefClass.classify sema name_ref =
      firstDecision [ctxMethodCall sema parent, ctxFieldExpr sema parent,
        ctxRecordExprField sema name_ref, ctxRecordPatField sema parent,
        ctxAssocTypeArg sema parent name_ref, ctxPathShaped sema name_ref,
        ctxExternCrate sema parent] := by
  rcases h1 : (castKind SyntaxKind.METHOD_CALL_EXPR parent).bind
      sema.resolve_method_call with - | func
  case some =>
    simp [NameRefClass.classify, hp, h1, ctxMethodCall, firstDecision]
  rcases h2 : (castKind SyntaxKind.FIELD_EXPR parent).bind
      sema.resolve_field with - | field
  case some =>
    simp [NameRefClass.classify, hp, h1, h2, ctxMethodCall, ctxFieldExpr,
      firstDecision]
  rcases h3 : (sema.record_expr_field_for_field_name name_ref).bind
      sema.resolve_record_field with - | fl
  case some =>
    rcases fl with ⟨field, lopt⟩
    cases lopt <;>
      simp [NameRefClass.classify, hp, h1, h2, h3, ctxMethodCall,
        ctxFieldExpr, ctxRecordExprField, firstDecision]
  rcases h4 : (castKind SyntaxKind.RECORD_PAT_FIELD parent).bind
      sema.resolve_record_pat_field with - | field
  case some =>
    simp [NameRefClass.classify, hp, h1, h2, h3, h4, ctxMethodCall,
      ctxFieldExpr, ctxRecordExprField, ctxRecordPatField, firstDecision]
  by_cases h5 : parent.data.kind = SyntaxKind.ASSOC_TYPE_ARG ∧
      sema.assoc_type_arg_name_ref parent = some name_ref
  · simp [NameRefClass.classify, hp, h1, h2, h3, h4, h5, ctxMethodCall,
      ctxFieldExpr, ctxRecordExprField, ctxRecordPatField, ctxAssocTypeArg,
      firstDecision]
  · rcases h6 : name_ref.ancestors.findSome? (castKind SyntaxKind.PATH)
        with - | path
    · rcases h7 : castKind SyntaxKind.EXTERN_CRATE parent with - | ec
      · simp [NameRefClass.classify, hp, h1, h2, h3, h4, h5, h6, h7,
          ctxMethodCall, ctxFieldExpr, ctxRecordExprField, ctxRecordPatField,
          ctxAssocTypeArg, ctxPathShaped, ctxExternCrate, firstDecision]
      · simp [NameRefClass.classify, hp, h1, h2, h3, h4, h5, h6, h7,
          ctxMethodCall, ctxFieldExpr, ctxRecordExprField, ctxRecordPatField,
          ctxAssocTypeArg, ctxPathShaped, ctxExternCrate, firstDecision]
    · simp [NameRefClass.classify, hp, h1, h2, h3, h4, h5, h6, ctxMethodCall,
        ctxFieldExpr, ctxRecordExprField, ctxRecordPatField, ctxAssocTypeArg,
        ctxPathShaped, firstDecision]

/-- Concrete all-pass scenario for C3. -/
def nameRef3 : SyntaxNode :=
  ⟨⟨SyntaxKind.NAME_REF, 130, "n"⟩, [⟨SyntaxKind.OTHER, 131, ""⟩]⟩

def parent3 : SyntaxNode := ⟨⟨SyntaxKind.OTHER, 131, ""⟩, []⟩

theorem C3_precedence_order_witness :
    NameRefClass.classify semaNone nameRef3 =
      firstDecision [ctxMethodCall semaNone parent3,
        ctxFieldExpr semaNone parent3, ctxRecordExprField semaNone nameRef3,
        ctxRecordPatField semaNone parent3,
        ctxAssocTypeArg semaNone parent3 nameRef3,
        ctxPathShaped semaNone nameRef3, ctxExternCrate semaNone parent3] :=
  C3_precedence_order semaNone nameRef3 parent3 (by decide)

end IdeDb
